import Mathlib

/-! # NetPiMonitor: connectivity state machine, state store and session supervisor

A shallow embedding of `main.go`.  Go maps become association lists with one
entry per key, the `*Device` pointer becomes a `Device` value threaded through
each call, the results of the external commands (`cmd.Run`, `cmd.Start`,
`cmd.Wait`) are inputs, and everything a function does to the outside world
(printing, running a command, starting a goroutine) is recorded, in program
order, in a list of `Effect`s.  Calling a nil function value panics in Go; the
embedding returns `none` there.  The goroutines share the device with the
evaluation that started them: `exitWatcher` is the step of the watcher on its
own, and `FSM.transitionRacing` is an evaluation with that step landing among
its accesses to the liveness flag.
-/

namespace NetPiMonitor

/-! ## Go values -/

/-- A Go `error` value: `none` is `nil`, `some msg` is a non-nil error. -/
abbrev GoError := Option String

/-- Lookup `m[key]` in a Go map with string keys, `none` when the key is absent. -/
def mapGet {α : Type} : List (String × α) → String → Option α
  | [], _ => none
  | (k, v) :: m, key => if k = key then some v else mapGet m key

/-- Assignment `m[key] = val` in a Go map: overwrite the entry, or add one. -/
def mapSet {α : Type} : List (String × α) → String → α → List (String × α)
  | [], key, val => [(key, val)]
  | (k, v) :: m, key, val =>
    if k = key then (k, val) :: m else (k, v) :: mapSet m key val

/-- The struct `Device`. -/
structure Device where
  IP : String
  User : String
  IsOnline : Bool
deriving DecidableEq, Repr

def StateDisconnected : String := "Disconnected"

def StateConnected : String := "Connected"

/-- What a function does to the outside world, in program order. -/
inductive Effect where
  /-- Output of `fmt.Printf` or `fmt.Println`. -/
  | print (line : String)
  /-- A call of `cmd.Run()` on `exec.Command(name, args...)`. -/
  | run (name : String) (args : List String)
  /-- A call of `cmd.Start()` on `exec.Command(name, args...)`. -/
  | start (name : String) (args : List String)
  /-- The `go func()` of `launchGnomeTerminal`: the exit watcher of a device. -/
  | goWatcher (ip : String)
  /-- The `go func()` of `connectedTransition`: the relaunch loop of a device. -/
  | goRelaunch (ip : String)
deriving DecidableEq, Repr

/-- The results of the external commands during one evaluation of a host. -/
structure Outcome where
  /-- Result of `cmd.Run()` of the ping command. -/
  pingErr : GoError
  /-- Result of `cmd.Start()` of the terminal, should it be launched. -/
  startErr : GoError
deriving DecidableEq, Repr

/-! ## Collaborators -/

/-- The function `pingCheck`: run `ping -c 1 -W 1 ip` and wrap its error. -/
def pingCheck (ip : String) (runErr : GoError) : GoError × List Effect :=
  let eff := [Effect.run "ping" ["-c", "1", "-W", "1", ip]]
  match runErr with
  | some err => (some ("ping check failed: " ++ err), eff)
  | none => (none, eff)

/-- The function `launchGnomeTerminal`, up to the start of its goroutine: the
command is started, a failure is printed, and the exit watcher is started in
both cases.  The device is not written here. -/
def launchGnomeTerminal (device : Device) (startErr : GoError) : List Effect :=
  let sshCommand := "ssh " ++ device.User ++ "@" ++ device.IP
  let started := [Effect.start "gnome-terminal" ["-e", sshCommand]]
  let failed :=
    match startErr with
    | some err => [Effect.print ("Failed to launch terminal: " ++ err ++ "\n")]
    | none => []
  started ++ failed ++ [Effect.goWatcher device.IP]

/-- The goroutine of `launchGnomeTerminal`, run once `cmd.Wait()` has returned
`waitErr`, on the device as it is at that moment. -/
def exitWatcher (device : Device) (waitErr : GoError) : Device × List Effect :=
  match waitErr with
  | some _ =>
    (⟨device.IP, device.User, false⟩,
      [Effect.print ("Device (" ++ device.IP ++ ") gnome-terminal closed\n")])
  | none => (device, [])

/-- The goroutine of `connectedTransition`.  Each iteration reads
`device.IsOnline`, which other goroutines write, so the values read are an
input: one pair per iteration, the value read and the result of `cmd.Start()`
should that iteration launch.  `none` when the loop is still running after the
last value given. -/
def relaunchLoop (device : Device) : List (Bool × GoError) → Option (List Effect)
  | [] => none
  | (false, _) :: _ => some []
  | (true, startErr) :: rest =>
    match relaunchLoop device rest with
    | none => none
    | some eff =>
      some (Effect.print ("Device (" ++ device.IP ++ ") is still connected\n")
        :: launchGnomeTerminal device startErr ++ eff)

/-! ## Host state machine -/

/-- A state handler: `func(device *Device) string`.  It returns the next
state, the device as it leaves it, and its effects. -/
abbrev Handler := Outcome → Device → String × Device × List Effect

/-- The function `disconnectedTransition`, run with no other goroutine writing
the device meanwhile; `disconnectedTransitionRacing` is the same code with the
write of an exit watcher landing among its accesses to the flag. -/
def disconnectedTransition : Handler := fun o device =>
  let (err, ping) := pingCheck device.IP o.pingErr
  if err = none then
    let eff :=
      if !device.IsOnline then
        Effect.print ("Device (" ++ device.IP ++ ") is up\n")
          :: launchGnomeTerminal device o.startErr
      else []
    (StateConnected, ⟨device.IP, device.User, true⟩, ping ++ eff)
  else
    (StateDisconnected, ⟨device.IP, device.User, false⟩, ping)

/-- The function `connectedTransition`, run with no other goroutine writing
the device meanwhile; `connectedTransitionRacing` is the same code with the
write of an exit watcher landing among its accesses to the flag. -/
def connectedTransition : Handler := fun o device =>
  let (err, ping) := pingCheck device.IP o.pingErr
  if err = none then
    let still := [Effect.print ("Device (" ++ device.IP ++ ") is still connected\n")]
    let eff :=
      if !device.IsOnline then
        [Effect.print ("Device (" ++ device.IP ++ ") gnome-terminal closed\n"),
          Effect.goRelaunch device.IP]
      else []
    (StateConnected, ⟨device.IP, device.User, true⟩, ping ++ still ++ eff)
  else
    (StateDisconnected, ⟨device.IP, device.User, false⟩,
      ping ++ [Effect.print ("Device (" ++ device.IP ++ ") is disconnected\n")])

/-- The struct `FSM`, without its mutex. -/
structure FSM where
  state : List (String × String)
  transFunc : List (String × Handler)

/-- The function `NewFSM`. -/
def NewFSM : FSM :=
  ⟨[], [(StateDisconnected, disconnectedTransition), (StateConnected, connectedTransition)]⟩

/-- The method `getState`. -/
def FSM.getState (fsm : FSM) (ip : String) : String :=
  match mapGet fsm.state ip with
  | some state => state
  | none => StateDisconnected

/-- The method `setState`. -/
def FSM.setState (fsm : FSM) (ip : String) (newState : String) : FSM :=
  ⟨mapSet fsm.state ip newState, fsm.transFunc⟩

/-- The method `transition`.  `none` is the panic of calling the nil function
that `fsm.transFunc[currentState]` is when the map has no such key. -/
def FSM.transition (fsm : FSM) (o : Outcome) (device : Device) :
    Option (FSM × Device × List Effect) :=
  let currentState := fsm.getState device.IP
  match mapGet fsm.transFunc currentState with
  | none => none
  | some handler =>
    let (newState, device1, eff) := handler o device
    some (fsm.setState device1.IP newState, device1, eff)

/-! ## Monitor loop -/

/-- The loop `for i := range targetDevices` of `monitor`, from index `i` on:
`devices` are the entries from `i` on, `outcomes k` are the results of the
external commands while entry `k` is evaluated. -/
def monitorTickFrom (outcomes : Nat → Outcome) :
    Nat → FSM → List Device → Option (FSM × List Device × List Effect)
  | _, fsm, [] => some (fsm, [], [])
  | i, fsm, device :: rest =>
    match fsm.transition (outcomes i) device with
    | none => none
    | some (fsm1, device1, eff) =>
      match monitorTickFrom outcomes (i + 1) fsm1 rest with
      | none => none
      | some (fsm2, rest1, eff1) => some (fsm2, device1 :: rest1, eff ++ eff1)

/-- One tick of `monitor`: the case `<-ticker.C`. -/
def monitorTick (outcomes : Nat → Outcome) (fsm : FSM) (targetDevices : List Device) :
    Option (FSM × List Device × List Effect) :=
  monitorTickFrom outcomes 0 fsm targetDevices

/-! ## Observations on effects -/

/-- Is this effect the start of a terminal, which `launchGnomeTerminal` does
once per call? -/
def isLaunch : Effect → Bool
  | Effect.start name _ => decide (name = "gnome-terminal")
  | _ => false

/-- Is this effect the start of a relaunch goroutine? -/
def isRelaunch : Effect → Bool
  | Effect.goRelaunch _ => true
  | _ => false

/-- The address an effect pings, when it is a run of the ping command. -/
def pingTarget : Effect → Option String
  | Effect.run name [_, _, _, _, ip] => if name = "ping" then some ip else none
  | _ => none

/-- The number of calls of `launchGnomeTerminal`. -/
def launchCalls (eff : List Effect) : Nat := eff.countP isLaunch

/-- The number of relaunch goroutines started. -/
def relaunchTasks (eff : List Effect) : Nat := eff.countP isRelaunch

/-- The addresses pinged, in order: each evaluation of a host pings once. -/
def pinged (eff : List Effect) : List String := eff.filterMap pingTarget

/-- A sequence of calls of `transition` on one store, each with its own device
and command results. -/
def FSM.transitions (fsm : FSM) : List (Outcome × Device) → Option FSM
  | [] => some fsm
  | (o, device) :: calls =>
    match fsm.transition o device with
    | none => none
    | some (fsm1, _, _) => fsm1.transitions calls

/-- The store after `n` calls `setState(ip, newState)`. -/
def FSM.setStateTimes (fsm : FSM) (ip : String) (newState : String) : Nat → FSM
  | 0 => fsm
  | n + 1 => (fsm.setStateTimes ip newState n).setState ip newState

/-- Is every stored state one of the two states the handlers return? -/
def FSM.statesKnown (fsm : FSM) : Bool :=
  fsm.state.all (fun p => decide (p.2 = StateDisconnected) || decide (p.2 = StateConnected))

/-- The handler table is the one `NewFSM` builds, which no method assigns, and
every stored state is one of its keys. -/
def FSM.Valid (fsm : FSM) : Prop :=
  fsm.transFunc = NewFSM.transFunc ∧ fsm.statesKnown = true

/-- The calls of `transition` that one tick makes from index `i` on. -/
def tickCalls (outcomes : Nat → Outcome) : Nat → List Device → List (Outcome × Device)
  | _, [] => []
  | i, device :: rest => (outcomes i, device) :: tickCalls outcomes (i + 1) rest

/-- The line an effect prints, when it prints one. -/
def printedLine : Effect → Option String
  | Effect.print line => some line
  | _ => none

/-- The lines printed, in order. -/
def printed (eff : List Effect) : List String := eff.filterMap printedLine

/-! ## The mutex of the store -/

/-- What a goroutine does to the store and its mutex, in program order. -/
inductive Access where
  /-- The call `fsm.mutex.Lock()`. -/
  | lock
  /-- The call `fsm.mutex.Unlock()`, deferred to the return of the method. -/
  | unlock
  /-- The read `fsm.state[ip]`. -/
  | readState (ip : String)
  /-- The assignment `fsm.state[ip] = newState`. -/
  | writeState (ip : String)
  /-- The call `fsm.transFunc[currentState](device)`: the handler runs. -/
  | call (currentState : String)
deriving DecidableEq, Repr

/-- The accesses of `getState`: lock, read the map, unlock on return. -/
def FSM.getStateAccesses (ip : String) : List Access :=
  [Access.lock, Access.readState ip, Access.unlock]

/-- The accesses of `setState`: lock, assign to the map, unlock on return. -/
def FSM.setStateAccesses (ip : String) : List Access :=
  [Access.lock, Access.writeState ip, Access.unlock]

/-- The accesses of `transition`, statement by statement; a nil handler panics
at the call, before `setState`. -/
def FSM.transitionAccesses (fsm : FSM) (o : Outcome) (device : Device) : List Access :=
  let currentState := fsm.getState device.IP
  FSM.getStateAccesses device.IP ++
    match mapGet fsm.transFunc currentState with
    | none => [Access.call currentState]
    | some handler =>
      Access.call currentState :: FSM.setStateAccesses (handler o device).2.1.IP

/-- Is the mutex used as a mutex along these accesses, starting with the mutex
held or not: locked only when free, unlocked only when held, the map read and
written only while it is held, and free at the end? -/
def guardedFrom : Bool → List Access → Bool
  | held, [] => !held
  | held, Access.lock :: rest => !held && guardedFrom true rest
  | held, Access.unlock :: rest => held && guardedFrom false rest
  | held, Access.readState _ :: rest => held && guardedFrom held rest
  | held, Access.writeState _ :: rest => held && guardedFrom held rest
  | held, Access.call _ :: rest => guardedFrom held rest

/-- The accesses after the first read of the record of `ip`. -/
def afterRead (ip : String) : List Access → List Access
  | [] => []
  | a :: rest => if a = Access.readState ip then rest else afterRead ip rest

/-- The accesses before the first write of the record of `ip`. -/
def beforeWrite (ip : String) : List Access → List Access
  | [] => []
  | a :: rest => if a = Access.writeState ip then [] else a :: beforeWrite ip rest

/-- The accesses between the read of the record of `ip` and the write that
follows it. -/
def betweenReadAndWrite (ip : String) (accesses : List Access) : List Access :=
  beforeWrite ip (afterRead ip accesses)

/-! ## An exit watcher running beside an evaluation

The exit watcher of a launch is a goroutine of its own, and it shares the
device with the evaluation through a pointer.  It makes one access to the
device, the assignment `device.IsOnline = false` of line 169, when `cmd.Wait()`
returns an error; a handler makes one read of the flag (lines 60, 78) on the
path where the ping succeeded, and one assignment to it (lines 65, 68, 92, 96)
on every path.  So a run of the two together is fixed by where the write of the
watcher lands among the accesses of the handler. -/

/-- Where the write of an exit watcher lands in an evaluation by `transition`
of the same device. -/
inductive WatcherAt where
  /-- Before the handler reads the flag: only for the watcher of an earlier
  launch, the watcher of a launch of this evaluation starting after the read. -/
  | beforeRead
  /-- After the read, and the launch that follows it, and before the handler
  assigns the flag. -/
  | beforeAssign
  /-- After the handler has assigned the flag and before `transition` returns. -/
  | beforeReturn
  /-- After `transition` has returned. -/
  | afterReturn
deriving DecidableEq, Repr

/-- The device after the step of the exit watcher, when it is taken here. -/
def watcherLands (waitErr : GoError) (here : Bool) (device : Device) : Device :=
  if here then (exitWatcher device waitErr).1 else device

/-- The function `disconnectedTransition` with an exit watcher, whose
`cmd.Wait()` returns `waitErr`, running beside it.  The device it returns is the
device when the handler returns. -/
def disconnectedTransitionRacing (waitErr : GoError) (pos : WatcherAt) : Handler :=
  fun o device =>
  let (err, ping) := pingCheck device.IP o.pingErr
  let atRead := watcherLands waitErr (decide (pos = WatcherAt.beforeRead)) device
  if err = none then
    let eff :=
      if !atRead.IsOnline then
        Effect.print ("Device (" ++ atRead.IP ++ ") is up\n")
          :: launchGnomeTerminal atRead o.startErr
      else []
    let atAssign := watcherLands waitErr (decide (pos = WatcherAt.beforeAssign)) atRead
    let assigned : Device := ⟨atAssign.IP, atAssign.User, true⟩
    (StateConnected,
      watcherLands waitErr (decide (pos = WatcherAt.beforeReturn)) assigned, ping ++ eff)
  else
    let atAssign := watcherLands waitErr (decide (pos = WatcherAt.beforeAssign)) atRead
    let assigned : Device := ⟨atAssign.IP, atAssign.User, false⟩
    (StateDisconnected,
      watcherLands waitErr (decide (pos = WatcherAt.beforeReturn)) assigned, ping)

/-- The function `connectedTransition` with an exit watcher, whose `cmd.Wait()`
returns `waitErr`, running beside it.  The device it returns is the device when
the handler returns. -/
def connectedTransitionRacing (waitErr : GoError) (pos : WatcherAt) : Handler :=
  fun o device =>
  let (err, ping) := pingCheck device.IP o.pingErr
  let atRead := watcherLands waitErr (decide (pos = WatcherAt.beforeRead)) device
  if err = none then
    let still := [Effect.print ("Device (" ++ atRead.IP ++ ") is still connected\n")]
    let eff :=
      if !atRead.IsOnline then
        [Effect.print ("Device (" ++ atRead.IP ++ ") gnome-terminal closed\n"),
          Effect.goRelaunch atRead.IP]
      else []
    let atAssign := watcherLands waitErr (decide (pos = WatcherAt.beforeAssign)) atRead
    let assigned : Device := ⟨atAssign.IP, atAssign.User, true⟩
    (StateConnected,
      watcherLands waitErr (decide (pos = WatcherAt.beforeReturn)) assigned,
      ping ++ still ++ eff)
  else
    let atAssign := watcherLands waitErr (decide (pos = WatcherAt.beforeAssign)) atRead
    let assigned : Device := ⟨atAssign.IP, atAssign.User, false⟩
    (StateDisconnected,
      watcherLands waitErr (decide (pos = WatcherAt.beforeReturn)) assigned,
      ping ++ [Effect.print ("Device (" ++ atRead.IP ++ ") is disconnected\n")])

/-- The handler table of `NewFSM`, each handler with the exit watcher beside
it. -/
def racingTransFunc (waitErr : GoError) (pos : WatcherAt) : List (String × Handler) :=
  [(StateDisconnected, disconnectedTransitionRacing waitErr pos),
    (StateConnected, connectedTransitionRacing waitErr pos)]

/-- The method `transition`, on the handler table of `NewFSM`, with an exit
watcher of the same device running beside it.  It returns the store, the device
when `transition` returns, the device once the watcher has taken its step as
well, and the effects of the evaluation; what the watcher prints is its own. -/
def FSM.transitionRacing (fsm : FSM) (waitErr : GoError) (pos : WatcherAt) (o : Outcome)
    (device : Device) : Option (FSM × Device × Device × List Effect) :=
  let currentState := fsm.getState device.IP
  match mapGet (racingTransFunc waitErr pos) currentState with
  | none => none
  | some handler =>
    let (newState, device1, eff) := handler o device
    some (fsm.setState device1.IP newState, device1,
      watcherLands waitErr (decide (pos = WatcherAt.afterReturn)) device1, eff)

/-! ## The state store -/

theorem mapGet_mapSet_same {α : Type} (m : List (String × α)) (key : String) (val : α) :
    mapGet (mapSet m key val) key = some val := by
  induction m with
  | nil => simp [mapSet, mapGet]
  | cons p m ih =>
    obtain ⟨k, v⟩ := p
    by_cases hk : k = key
    · simp [mapSet, mapGet, hk]
    · simp [mapSet, mapGet, hk, ih]

theorem mapGet_mapSet_other {α : Type} (m : List (String × α)) (key other : String)
    (val : α) (hne : key ≠ other) :
    mapGet (mapSet m key val) other = mapGet m other := by
  induction m with
  | nil => simp [mapSet, mapGet, hne]
  | cons p m ih =>
    obtain ⟨k, v⟩ := p
    by_cases hk : k = key
    · subst hk
      simp [mapSet, mapGet, hne]
    · by_cases ho : k = other
      · subst ho
        simp [mapSet, mapGet, hk]
      · simp [mapSet, mapGet, hk, ho, ih]

theorem getState_setState_same (fsm : FSM) (ip : String) (s : String) :
    (fsm.setState ip s).getState ip = s := by
  simp [FSM.getState, FSM.setState, mapGet_mapSet_same]

theorem getState_setState_other (fsm : FSM) (ip other : String) (s : String)
    (hne : ip ≠ other) : (fsm.setState ip s).getState other = fsm.getState other := by
  simp [FSM.getState, FSM.setState, mapGet_mapSet_other _ _ _ _ hne]

/-- C1: a store with no entry for `ip` answers `Disconnected` for it, and so
does the store `NewFSM` returns, for every `ip`; `getState` is a total
function, so it does not fail. -/
theorem getState_default (fsm : FSM) (ip : String) (h : mapGet fsm.state ip = none) :
    fsm.getState ip = StateDisconnected ∧ NewFSM.getState ip = StateDisconnected := by
  constructor
  · simp [FSM.getState, h]
  · simp [FSM.getState, NewFSM, mapGet]

theorem getState_default_witness :
    mapGet (FSM.mk [("192.168.1.101", StateConnected)] NewFSM.transFunc).state
        "192.168.1.102" = none ∧
      (FSM.mk [("192.168.1.101", StateConnected)] NewFSM.transFunc).getState
        "192.168.1.102" = StateDisconnected :=
  ⟨by decide, (getState_default _ "192.168.1.102" (by decide)).1⟩

/-- C2: after `n ≥ 1` calls `setState(h, Connected)`, `getState(h)` is
`Connected`; and `getState(h)` right after `setState(h, s)` is `s` for every
state value `s`, whatever the store held. -/
theorem getState_after_setState (fsm : FSM) (h : String) (n : Nat) (hn : 1 ≤ n) :
    (fsm.setStateTimes h StateConnected n).getState h = StateConnected ∧
      ∀ s : String, (fsm.setState h s).getState h = s := by
  constructor
  · obtain ⟨m, rfl⟩ : ∃ m, n = m + 1 := ⟨n - 1, by omega⟩
    simp [FSM.setStateTimes, getState_setState_same]
  · intro s
    exact getState_setState_same fsm h s

theorem getState_after_setState_witness :
    1 ≤ 3 ∧
      ((FSM.mk [("192.168.1.101", StateDisconnected)] NewFSM.transFunc).setStateTimes
        "192.168.1.101" StateConnected 3).getState "192.168.1.101" = StateConnected :=
  ⟨by decide, (getState_after_setState _ "192.168.1.101" 3 (by decide)).1⟩

/-! ## The handlers, case by case -/

theorem disconnectedTransition_reachable (o : Outcome) (d : Device) (h : o.pingErr = none) :
    disconnectedTransition o d =
      (StateConnected, ⟨d.IP, d.User, true⟩,
        Effect.run "ping" ["-c", "1", "-W", "1", d.IP] ::
          (if d.IsOnline then []
            else Effect.print ("Device (" ++ d.IP ++ ") is up\n")
              :: launchGnomeTerminal d o.startErr)) := by
  cases hd : d.IsOnline <;> simp [disconnectedTransition, pingCheck, h, hd]

theorem disconnectedTransition_unreachable (o : Outcome) (d : Device)
    (h : o.pingErr ≠ none) :
    disconnectedTransition o d =
      (StateDisconnected, ⟨d.IP, d.User, false⟩,
        [Effect.run "ping" ["-c", "1", "-W", "1", d.IP]]) := by
  cases hp : o.pingErr with
  | none => exact absurd hp h
  | some e => simp [disconnectedTransition, pingCheck, hp]

theorem connectedTransition_reachable (o : Outcome) (d : Device) (h : o.pingErr = none) :
    connectedTransition o d =
      (StateConnected, ⟨d.IP, d.User, true⟩,
        Effect.run "ping" ["-c", "1", "-W", "1", d.IP] ::
          Effect.print ("Device (" ++ d.IP ++ ") is still connected\n") ::
          (if d.IsOnline then []
            else [Effect.print ("Device (" ++ d.IP ++ ") gnome-terminal closed\n"),
              Effect.goRelaunch d.IP])) := by
  cases hd : d.IsOnline <;> simp [connectedTransition, pingCheck, h, hd]

theorem connectedTransition_unreachable (o : Outcome) (d : Device)
    (h : o.pingErr ≠ none) :
    connectedTransition o d =
      (StateDisconnected, ⟨d.IP, d.User, false⟩,
        [Effect.run "ping" ["-c", "1", "-W", "1", d.IP],
          Effect.print ("Device (" ++ d.IP ++ ") is disconnected\n")]) := by
  cases hp : o.pingErr with
  | none => exact absurd hp h
  | some e => simp [connectedTransition, pingCheck, hp]

theorem launchCalls_launchGnomeTerminal (d : Device) (startErr : GoError) :
    launchCalls (launchGnomeTerminal d startErr) = 1 := by
  cases startErr <;> simp [launchCalls, launchGnomeTerminal, isLaunch]

theorem relaunchTasks_launchGnomeTerminal (d : Device) (startErr : GoError) :
    relaunchTasks (launchGnomeTerminal d startErr) = 0 := by
  cases startErr <;> simp [relaunchTasks, launchGnomeTerminal, isRelaunch]

theorem pinged_launchGnomeTerminal (d : Device) (startErr : GoError) :
    pinged (launchGnomeTerminal d startErr) = [] := by
  cases startErr <;> simp [pinged, launchGnomeTerminal, pingTarget]

/-! ## One evaluation -/

theorem transition_disconnected (fsm : FSM) (o : Outcome) (d : Device)
    (ht : fsm.transFunc = NewFSM.transFunc) (hs : fsm.getState d.IP = StateDisconnected) :
    fsm.transition o d =
      some (fsm.setState d.IP (disconnectedTransition o d).1,
        (disconnectedTransition o d).2.1, (disconnectedTransition o d).2.2) := by
  have hg : mapGet NewFSM.transFunc StateDisconnected = some disconnectedTransition := by
    simp [NewFSM, mapGet]
  have hip : (disconnectedTransition o d).2.1.IP = d.IP := by
    by_cases hp : o.pingErr = none
    · rw [disconnectedTransition_reachable o d hp]
    · rw [disconnectedTransition_unreachable o d hp]
  simp only [FSM.transition, hs, ht, hg, hip]

theorem transition_connected (fsm : FSM) (o : Outcome) (d : Device)
    (ht : fsm.transFunc = NewFSM.transFunc) (hs : fsm.getState d.IP = StateConnected) :
    fsm.transition o d =
      some (fsm.setState d.IP (connectedTransition o d).1,
        (connectedTransition o d).2.1, (connectedTransition o d).2.2) := by
  have hne : ¬ StateDisconnected = StateConnected := by decide
  have hg : mapGet NewFSM.transFunc StateConnected = some connectedTransition := by
    simp [NewFSM, mapGet, hne]
  have hip : (connectedTransition o d).2.1.IP = d.IP := by
    by_cases hp : o.pingErr = none
    · rw [connectedTransition_reachable o d hp]
    · rw [connectedTransition_unreachable o d hp]
  simp only [FSM.transition, hs, ht, hg, hip]

/-! ## Scenarios of the host state machine -/

/-- C4: the code at a `Connected`, not live host with the probe reachable.
The evaluation leaves the state `Connected` and the flag true, but it makes no
launch call: it starts the relaunch goroutine, and that one launches once per
true value it reads, so no call when it reads false first, two calls when it
reads true twice. -/
theorem connected_notLive_reachable_makes_no_launch :
    ∃ fsm1 d1 eff,
      (FSM.mk [("192.168.1.101", StateConnected)] NewFSM.transFunc).transition
        ⟨none, none⟩ ⟨"192.168.1.101", "chris", false⟩ = some (fsm1, d1, eff) ∧
      fsm1.getState "192.168.1.101" = StateConnected ∧ d1.IsOnline = true ∧
      launchCalls eff = 0 ∧ relaunchTasks eff = 1 ∧
      (relaunchLoop d1 [(false, none)]).map launchCalls = some 0 ∧
      (relaunchLoop d1 [(true, none), (true, none), (false, none)]).map launchCalls =
        some 2 := by
  have e := transition_connected
    (FSM.mk [("192.168.1.101", StateConnected)] NewFSM.transFunc)
    ⟨none, none⟩ ⟨"192.168.1.101", "chris", false⟩ rfl (by decide)
  rw [connectedTransition_reachable _ _ rfl] at e
  refine ⟨_, _, _, e, getState_setState_same _ _ _, rfl, ?_, ?_, ?_, ?_⟩
  · decide
  · decide
  · decide
  · decide

/-- C6, as stated, fails: when `cmd.Wait()` returns nil, a clean exit, the exit
watcher leaves a true liveness flag true. -/
theorem exitWatcher_clean_exit_keeps_live :
    (exitWatcher ⟨"192.168.1.101", "chris", true⟩ none).1.IsOnline = true := by
  decide

/-- C6, amended: the exit watcher sets the liveness flag to false when
`cmd.Wait()` returns a non-nil error, and leaves the device as it is, and
prints nothing, when `cmd.Wait()` returns nil. -/
theorem exitWatcher_clears_on_error_only (d : Device) (err : String) :
    (exitWatcher d (some err)).1.IsOnline = false ∧
      (exitWatcher d (some err)).1.IP = d.IP ∧
      (exitWatcher d (some err)).1.User = d.User ∧
      exitWatcher d none = (d, []) := by
  simp [exitWatcher]

/-- C7: whatever the stored state of the host, `Disconnected` or `Connected`,
and whatever its liveness flag, an evaluation whose ping fails leaves the
stored state `Disconnected` and the flag false, makes no launch call and
starts no relaunch goroutine. -/
theorem unreachable_disconnects (fsm : FSM) (d : Device) (o : Outcome)
    (ht : fsm.transFunc = NewFSM.transFunc)
    (hs : fsm.getState d.IP = StateDisconnected ∨ fsm.getState d.IP = StateConnected)
    (hp : o.pingErr ≠ none) :
    ∃ fsm1 d1 eff,
      fsm.transition o d = some (fsm1, d1, eff) ∧
      fsm1.getState d.IP = StateDisconnected ∧ d1.IsOnline = false ∧
      launchCalls eff = 0 ∧ relaunchTasks eff = 0 := by
  rcases hs with hs | hs
  · have e := transition_disconnected fsm o d ht hs
    rw [disconnectedTransition_unreachable o d hp] at e
    refine ⟨_, _, _, e, getState_setState_same _ _ _, rfl, ?_, ?_⟩
    · simp [launchCalls, isLaunch]
    · simp [relaunchTasks, isRelaunch]
  · have e := transition_connected fsm o d ht hs
    rw [connectedTransition_unreachable o d hp] at e
    refine ⟨_, _, _, e, getState_setState_same _ _ _, rfl, ?_, ?_⟩
    · simp [launchCalls, isLaunch]
    · simp [relaunchTasks, isRelaunch]

theorem unreachable_disconnects_witness :
    ∃ fsm1 d1 eff,
      (FSM.mk [("192.168.1.101", StateConnected)] NewFSM.transFunc).transition
        ⟨some "exit status 1", none⟩ ⟨"192.168.1.101", "chris", true⟩ =
          some (fsm1, d1, eff) ∧
      fsm1.getState "192.168.1.101" = StateDisconnected ∧ d1.IsOnline = false ∧
      launchCalls eff = 0 ∧ relaunchTasks eff = 0 :=
  unreachable_disconnects (FSM.mk [("192.168.1.101", StateConnected)] NewFSM.transFunc)
    ⟨"192.168.1.101", "chris", true⟩ ⟨some "exit status 1", none⟩ rfl
    (Or.inr (by decide)) (by decide)

/-- C8: whatever the stored state of the host and whatever the result of the
ping, an evaluation that finds the liveness flag true makes no launch call and
starts no relaunch goroutine. -/
theorem live_host_is_not_launched (fsm : FSM) (d : Device) (o : Outcome)
    (ht : fsm.transFunc = NewFSM.transFunc)
    (hs : fsm.getState d.IP = StateDisconnected ∨ fsm.getState d.IP = StateConnected)
    (hl : d.IsOnline = true) :
    ∃ fsm1 d1 eff,
      fsm.transition o d = some (fsm1, d1, eff) ∧
      launchCalls eff = 0 ∧ relaunchTasks eff = 0 := by
  rcases hs with hs | hs
  · have e := transition_disconnected fsm o d ht hs
    refine ⟨_, _, _, e, ?_, ?_⟩
    · by_cases hp : o.pingErr = none
      · rw [disconnectedTransition_reachable o d hp]
        simp [launchCalls, isLaunch, hl]
      · rw [disconnectedTransition_unreachable o d hp]
        simp [launchCalls, isLaunch]
    · by_cases hp : o.pingErr = none
      · rw [disconnectedTransition_reachable o d hp]
        simp [relaunchTasks, isRelaunch, hl]
      · rw [disconnectedTransition_unreachable o d hp]
        simp [relaunchTasks, isRelaunch]
  · have e := transition_connected fsm o d ht hs
    refine ⟨_, _, _, e, ?_, ?_⟩
    · by_cases hp : o.pingErr = none
      · rw [connectedTransition_reachable o d hp]
        simp [launchCalls, isLaunch, hl]
      · rw [connectedTransition_unreachable o d hp]
        simp [launchCalls, isLaunch]
    · by_cases hp : o.pingErr = none
      · rw [connectedTransition_reachable o d hp]
        simp [relaunchTasks, isRelaunch, hl]
      · rw [connectedTransition_unreachable o d hp]
        simp [relaunchTasks, isRelaunch]

theorem live_host_is_not_launched_witness :
    ∃ fsm1 d1 eff,
      (FSM.mk [("192.168.1.101", StateConnected)] NewFSM.transFunc).transition
        ⟨none, none⟩ ⟨"192.168.1.101", "chris", true⟩ = some (fsm1, d1, eff) ∧
      launchCalls eff = 0 ∧ relaunchTasks eff = 0 :=
  live_host_is_not_launched (FSM.mk [("192.168.1.101", StateConnected)] NewFSM.transFunc)
    ⟨"192.168.1.101", "chris", true⟩ ⟨none, none⟩ rfl (Or.inr (by decide)) rfl

/-! ## Stores reachable from `NewFSM` -/

theorem mapSet_all {α : Type} (q : String × α → Bool) (m : List (String × α))
    (key : String) (val : α) (hm : m.all q = true) (hq : q (key, val) = true) :
    (mapSet m key val).all q = true := by
  induction m with
  | nil => simp [mapSet, hq]
  | cons p m ih =>
    obtain ⟨k, v⟩ := p
    simp only [List.all_cons, Bool.and_eq_true] at hm
    by_cases hk : k = key
    · subst hk
      simp [mapSet, hq, hm.2]
    · simp [mapSet, hk, hm.1, ih hm.2]

theorem mapGet_of_all {α : Type} (q : String × α → Bool) (m : List (String × α))
    (key : String) (val : α) (hm : m.all q = true) (hg : mapGet m key = some val) :
    q (key, val) = true := by
  induction m with
  | nil => simp [mapGet] at hg
  | cons p m ih =>
    obtain ⟨k, v⟩ := p
    simp only [List.all_cons, Bool.and_eq_true] at hm
    by_cases hk : k = key
    · subst hk
      simp only [mapGet, if_true, Option.some.injEq] at hg
      subst hg
      exact hm.1
    · simp only [mapGet, hk, if_false] at hg
      exact ih hm.2 hg

theorem valid_NewFSM : NewFSM.Valid := ⟨rfl, rfl⟩

theorem valid_getState (fsm : FSM) (hv : fsm.Valid) (ip : String) :
    fsm.getState ip = StateDisconnected ∨ fsm.getState ip = StateConnected := by
  unfold FSM.getState
  cases hg : mapGet fsm.state ip with
  | none => exact Or.inl rfl
  | some st =>
    have := mapGet_of_all _ fsm.state ip st hv.2 hg
    simpa using this

theorem valid_setState (fsm : FSM) (hv : fsm.Valid) (ip s : String)
    (hs : s = StateDisconnected ∨ s = StateConnected) : (fsm.setState ip s).Valid := by
  refine ⟨hv.1, ?_⟩
  unfold FSM.statesKnown FSM.setState
  exact mapSet_all _ fsm.state ip s hv.2 (by simpa using hs)

/-- On a valid store an evaluation returns: it finds a handler, pings the host
once, keeps the address and the user of the device, stores one of the two
states for it, and leaves the store valid. -/
theorem valid_transition (fsm : FSM) (hv : fsm.Valid) (o : Outcome) (d : Device) :
    ∃ fsm1 d1 eff,
      fsm.transition o d = some (fsm1, d1, eff) ∧ fsm1.Valid ∧
      (fsm1.getState d.IP = StateDisconnected ∨ fsm1.getState d.IP = StateConnected) ∧
      d1.IP = d.IP ∧ d1.User = d.User ∧ pinged eff = [d.IP] := by
  have hping := pinged_launchGnomeTerminal d o.startErr
  simp only [pinged] at hping
  rcases valid_getState fsm hv d.IP with hs | hs
  · have e := transition_disconnected fsm o d hv.1 hs
    by_cases hp : o.pingErr = none
    · rw [disconnectedTransition_reachable o d hp] at e
      refine ⟨_, _, _, e, valid_setState fsm hv _ _ (Or.inr rfl), ?_, rfl, rfl, ?_⟩
      · exact Or.inr (getState_setState_same _ _ _)
      · cases hd : d.IsOnline <;> simp [pinged, pingTarget, hping]
    · rw [disconnectedTransition_unreachable o d hp] at e
      refine ⟨_, _, _, e, valid_setState fsm hv _ _ (Or.inl rfl), ?_, rfl, rfl, ?_⟩
      · exact Or.inl (getState_setState_same _ _ _)
      · simp [pinged, pingTarget]
  · have e := transition_connected fsm o d hv.1 hs
    by_cases hp : o.pingErr = none
    · rw [connectedTransition_reachable o d hp] at e
      refine ⟨_, _, _, e, valid_setState fsm hv _ _ (Or.inr rfl), ?_, rfl, rfl, ?_⟩
      · exact Or.inr (getState_setState_same _ _ _)
      · cases hd : d.IsOnline <;> simp [pinged, pingTarget]
    · rw [connectedTransition_unreachable o d hp] at e
      refine ⟨_, _, _, e, valid_setState fsm hv _ _ (Or.inl rfl), ?_, rfl, rfl, ?_⟩
      · exact Or.inl (getState_setState_same _ _ _)
      · simp [pinged, pingTarget]

theorem valid_transitions (calls : List (Outcome × Device)) (fsm : FSM) (hv : fsm.Valid) :
    ∃ fsm1, fsm.transitions calls = some fsm1 ∧ fsm1.Valid := by
  induction calls generalizing fsm with
  | nil => exact ⟨fsm, rfl, hv⟩
  | cons c calls ih =>
    obtain ⟨o, d⟩ := c
    obtain ⟨fsm1, d1, eff, e, hv1, -⟩ := valid_transition fsm hv o d
    obtain ⟨fsm2, e2, hv2⟩ := ih fsm1 hv1
    exact ⟨fsm2, by simp [FSM.transitions, e, e2], hv2⟩

theorem valid_monitorTickFrom (outcomes : Nat → Outcome) (devices : List Device) (i : Nat)
    (fsm : FSM) (hv : fsm.Valid) :
    ∃ fsm1 devices1 eff,
      monitorTickFrom outcomes i fsm devices = some (fsm1, devices1, eff) ∧ fsm1.Valid ∧
      fsm.transitions (tickCalls outcomes i devices) = some fsm1 ∧
      pinged eff = devices.map Device.IP ∧
      devices1.map Device.IP = devices.map Device.IP ∧
      devices1.map Device.User = devices.map Device.User := by
  induction devices generalizing i fsm with
  | nil => exact ⟨fsm, [], [], rfl, hv, rfl, rfl, rfl, rfl⟩
  | cons d rest ih =>
    obtain ⟨fsm1, d1, eff, e, hv1, -, hip, huser, hping⟩ :=
      valid_transition fsm hv (outcomes i) d
    obtain ⟨fsm2, rest1, eff1, e2, hv2, ht2, hping2, hip2, huser2⟩ := ih (i + 1) fsm1 hv1
    refine ⟨fsm2, d1 :: rest1, eff ++ eff1, ?_, hv2, ?_, ?_, ?_, ?_⟩
    · simp [monitorTickFrom, e, e2]
    · simp [tickCalls, FSM.transitions, e, ht2]
    · simp only [pinged] at hping hping2
      simp [pinged, List.filterMap_append, hping, hping2]
    · simp [hip, hip2]
    · simp [huser, huser2]

/-- C9: whatever calls of `transition` were made on the store of `NewFSM`, on
any devices with any command results and liveness flags, they all return,
every state stored is `Disconnected` or `Connected`, the lookup
`fsm.transFunc[currentState]` finds a handler for every address, and one more
evaluation, of any device with any command results, returns with
`Disconnected` or `Connected` stored for that device. -/
theorem reachable_store_has_handlers (calls : List (Outcome × Device)) :
    ∃ fsm,
      NewFSM.transitions calls = some fsm ∧ fsm.statesKnown = true ∧
      (∀ ip, fsm.getState ip = StateDisconnected ∨ fsm.getState ip = StateConnected) ∧
      (∀ ip, ∃ handler, mapGet fsm.transFunc (fsm.getState ip) = some handler) ∧
      ∀ o d, ∃ fsm1 d1 eff,
        fsm.transition o d = some (fsm1, d1, eff) ∧
        (fsm1.getState d.IP = StateDisconnected ∨ fsm1.getState d.IP = StateConnected) := by
  obtain ⟨fsm, e, hv⟩ := valid_transitions calls NewFSM valid_NewFSM
  refine ⟨fsm, e, hv.2, valid_getState fsm hv, ?_, ?_⟩
  · intro ip
    have hne : ¬ StateDisconnected = StateConnected := by decide
    rcases valid_getState fsm hv ip with hs | hs
    · exact ⟨disconnectedTransition, by rw [hs, hv.1]; simp [NewFSM, mapGet]⟩
    · exact ⟨connectedTransition, by rw [hs, hv.1]; simp [NewFSM, mapGet, hne]⟩
  · intro o d
    obtain ⟨fsm1, d1, eff, e1, -, hs, -⟩ := valid_transition fsm hv o d
    exact ⟨fsm1, d1, eff, e1, hs⟩

/-- C10: on every store reached from `NewFSM` by calls of `transition`, for
every registry and every results of the pings and launches, a tick returns,
having made the calls of `transition` of the registry entries in registry
order, one per entry: the addresses pinged are those of the registry in order,
and the registry keeps its addresses and users. -/
theorem monitorTick_evaluates_registry (calls : List (Outcome × Device))
    (outcomes : Nat → Outcome) (targetDevices : List Device) :
    ∃ fsm fsm1 devices1 eff,
      NewFSM.transitions calls = some fsm ∧
      monitorTick outcomes fsm targetDevices = some (fsm1, devices1, eff) ∧
      fsm.transitions (tickCalls outcomes 0 targetDevices) = some fsm1 ∧
      pinged eff = targetDevices.map Device.IP ∧
      devices1.map Device.IP = targetDevices.map Device.IP ∧
      devices1.map Device.User = targetDevices.map Device.User := by
  obtain ⟨fsm, e, hv⟩ := valid_transitions calls NewFSM valid_NewFSM
  obtain ⟨fsm1, devices1, eff, e1, -, ht, hping, hip, huser⟩ :=
    valid_monitorTickFrom outcomes targetDevices 0 fsm hv
  exact ⟨fsm, fsm1, devices1, eff, e, e1, ht, hping, hip, huser⟩

/-! ## Records, addresses and the frame of an evaluation -/

/-- An evaluation on the handler table of `NewFSM`, of a host whose stored
state is one of the two: the state the handler returns is stored for the
address of the device, and both it and the flag follow the ping. -/
theorem known_transition_eq (fsm : FSM) (o : Outcome) (d : Device)
    (ht : fsm.transFunc = NewFSM.transFunc)
    (hs : fsm.getState d.IP = StateDisconnected ∨ fsm.getState d.IP = StateConnected) :
    ∃ s d1 eff,
      fsm.transition o d = some (fsm.setState d.IP s, d1, eff) ∧
      d1.IP = d.IP ∧ d1.User = d.User ∧
      (s = StateConnected ↔ o.pingErr = none) ∧ (d1.IsOnline = true ↔ o.pingErr = none) := by
  have hne : ¬ StateDisconnected = StateConnected := by decide
  rcases hs with hs | hs
  · have e := transition_disconnected fsm o d ht hs
    by_cases hp : o.pingErr = none
    · rw [disconnectedTransition_reachable o d hp] at e
      exact ⟨_, _, _, e, rfl, rfl, by simp [hp], by simp [hp]⟩
    · rw [disconnectedTransition_unreachable o d hp] at e
      exact ⟨_, _, _, e, rfl, rfl, by simp [hp, hne], by simp [hp]⟩
  · have e := transition_connected fsm o d ht hs
    by_cases hp : o.pingErr = none
    · rw [connectedTransition_reachable o d hp] at e
      exact ⟨_, _, _, e, rfl, rfl, by simp [hp], by simp [hp]⟩
    · rw [connectedTransition_unreachable o d hp] at e
      exact ⟨_, _, _, e, rfl, rfl, by simp [hp, hne], by simp [hp]⟩

/-- C11, as stated, fails: two registry entries with the same address and
different users have one record, so evaluating the entry of `chris` changes the
state that `getState` returns for the entry of `james`. -/
theorem shared_address_shares_record :
    ∃ fsm1 d1 eff,
      (⟨"192.168.1.101", "chris", false⟩ : Device) ≠ ⟨"192.168.1.101", "james", false⟩ ∧
      NewFSM.transition ⟨none, none⟩ ⟨"192.168.1.101", "chris", false⟩ =
        some (fsm1, d1, eff) ∧
      NewFSM.getState (Device.IP ⟨"192.168.1.101", "james", false⟩) = StateDisconnected ∧
      fsm1.getState (Device.IP ⟨"192.168.1.101", "james", false⟩) = StateConnected := by
  have e := transition_disconnected NewFSM ⟨none, none⟩
    ⟨"192.168.1.101", "chris", false⟩ rfl (by decide)
  rw [disconnectedTransition_reachable _ _ rfl] at e
  exact ⟨_, _, _, by decide, e, by decide, getState_setState_same _ _ _⟩

/-- C11, amended: the records are per address.  On a store reached from
`NewFSM`, evaluating one registry entry returns and leaves unchanged the state
that `getState` returns for every registry entry with another address. -/
theorem transition_keeps_other_addresses (calls : List (Outcome × Device)) (o : Outcome)
    (d other : Device) (hne : d.IP ≠ other.IP) :
    ∃ fsm fsm1 d1 eff,
      NewFSM.transitions calls = some fsm ∧
      fsm.transition o d = some (fsm1, d1, eff) ∧
      fsm1.getState other.IP = fsm.getState other.IP := by
  obtain ⟨fsm, e, hv⟩ := valid_transitions calls NewFSM valid_NewFSM
  obtain ⟨s, d1, eff, e1, -⟩ :=
    known_transition_eq fsm o d hv.1 (valid_getState fsm hv d.IP)
  exact ⟨fsm, _, d1, eff, e, e1, getState_setState_other fsm d.IP other.IP s hne⟩

theorem transition_keeps_other_addresses_witness :
    ∃ fsm fsm1 d1 eff,
      NewFSM.transitions [(⟨none, none⟩, ⟨"192.168.1.102", "sarah", false⟩)] = some fsm ∧
      fsm.transition ⟨none, none⟩ ⟨"192.168.1.101", "chris", false⟩ =
        some (fsm1, d1, eff) ∧
      fsm1.getState (Device.IP ⟨"192.168.1.102", "sarah", true⟩) =
        fsm.getState (Device.IP ⟨"192.168.1.102", "sarah", true⟩) :=
  transition_keeps_other_addresses [(⟨none, none⟩, ⟨"192.168.1.102", "sarah", false⟩)]
    ⟨none, none⟩ ⟨"192.168.1.101", "chris", false⟩ ⟨"192.168.1.102", "sarah", true⟩
    (by decide)

/-- C12: `setState(ip, s)` leaves what `getState(ip2)` returns unchanged for
every address `ip2` other than `ip`, and leaves the entry of `ip2` in the map as
it was, present or absent. -/
theorem setState_keeps_other_addresses (fsm : FSM) (ip ip2 : String) (s : String)
    (hne : ip ≠ ip2) :
    (fsm.setState ip s).getState ip2 = fsm.getState ip2 ∧
      mapGet (fsm.setState ip s).state ip2 = mapGet fsm.state ip2 :=
  ⟨getState_setState_other fsm ip ip2 s hne, mapGet_mapSet_other fsm.state ip ip2 s hne⟩

theorem setState_keeps_other_addresses_witness :
    ((FSM.mk [("192.168.1.102", StateConnected)] NewFSM.transFunc).setState
        "192.168.1.101" StateConnected).getState "192.168.1.102" =
      (FSM.mk [("192.168.1.102", StateConnected)] NewFSM.transFunc).getState
        "192.168.1.102" :=
  (setState_keeps_other_addresses _ "192.168.1.101" "192.168.1.102" StateConnected
    (by decide)).1

/-! ## Status lines -/

/-- C13, as stated, fails: a `Disconnected` host whose liveness flag is already
true and that answers the ping goes to `Connected` without any line printed. -/
theorem live_disconnected_host_comes_up_silently :
    ∃ fsm1 d1 eff,
      NewFSM.getState "192.168.1.101" = StateDisconnected ∧
      NewFSM.transition ⟨none, none⟩ ⟨"192.168.1.101", "chris", true⟩ =
        some (fsm1, d1, eff) ∧
      fsm1.getState "192.168.1.101" = StateConnected ∧ printed eff = [] := by
  have e := transition_disconnected NewFSM ⟨none, none⟩
    ⟨"192.168.1.101", "chris", true⟩ rfl (by decide)
  rw [disconnectedTransition_reachable _ _ rfl] at e
  exact ⟨_, _, _, by decide, e, getState_setState_same _ _ _, by decide⟩

/-- C13, amended: an evaluation prints `is still connected` when a `Connected`
host answers the ping, `is disconnected` when a `Connected` host does not, and
`is up` when a `Disconnected` host whose liveness flag is false answers the
ping; a `Disconnected` host whose flag is true and that answers the ping prints
nothing. -/
theorem status_lines (fsm : FSM) (d : Device) (o : Outcome)
    (ht : fsm.transFunc = NewFSM.transFunc)
    (hs : fsm.getState d.IP = StateDisconnected ∨ fsm.getState d.IP = StateConnected) :
    ∃ fsm1 d1 eff,
      fsm.transition o d = some (fsm1, d1, eff) ∧
      (fsm.getState d.IP = StateConnected → o.pingErr = none →
        ("Device (" ++ d.IP ++ ") is still connected\n") ∈ printed eff) ∧
      (fsm.getState d.IP = StateConnected → o.pingErr ≠ none →
        ("Device (" ++ d.IP ++ ") is disconnected\n") ∈ printed eff) ∧
      (fsm.getState d.IP = StateDisconnected → o.pingErr = none → d.IsOnline = false →
        ("Device (" ++ d.IP ++ ") is up\n") ∈ printed eff) ∧
      (fsm.getState d.IP = StateDisconnected → o.pingErr = none → d.IsOnline = true →
        printed eff = []) := by
  have hne : ¬ StateDisconnected = StateConnected := by decide
  rcases hs with hs | hs
  · have e := transition_disconnected fsm o d ht hs
    refine ⟨_, _, _, e, ?_, ?_, ?_, ?_⟩
    · intro hc
      exact absurd (hs.symm.trans hc) hne
    · intro hc
      exact absurd (hs.symm.trans hc) hne
    · intro _ hp hd
      rw [disconnectedTransition_reachable o d hp]
      simp [printed, printedLine, hd]
    · intro _ hp hd
      rw [disconnectedTransition_reachable o d hp]
      simp [printed, printedLine, hd]
  · have e := transition_connected fsm o d ht hs
    refine ⟨_, _, _, e, ?_, ?_, ?_, ?_⟩
    · intro _ hp
      rw [connectedTransition_reachable o d hp]
      simp [printed, printedLine]
    · intro _ hp
      rw [connectedTransition_unreachable o d hp]
      simp [printed, printedLine]
    · intro hc
      exact absurd (hc.symm.trans hs) hne
    · intro hc
      exact absurd (hc.symm.trans hs) hne

theorem status_lines_witness :
    ∃ fsm1 d1 eff,
      (FSM.mk [("192.168.1.101", StateConnected)] NewFSM.transFunc).transition
        ⟨some "exit status 1", none⟩ ⟨"192.168.1.101", "chris", true⟩ =
          some (fsm1, d1, eff) ∧
      ("Device (" ++ "192.168.1.101" ++ ") is disconnected\n") ∈ printed eff :=
  match status_lines (FSM.mk [("192.168.1.101", StateConnected)] NewFSM.transFunc)
    ⟨"192.168.1.101", "chris", true⟩ ⟨some "exit status 1", none⟩ rfl
    (Or.inr (by decide)) with
  | ⟨fsm1, d1, eff, e, _, h, _, _⟩ => ⟨fsm1, d1, eff, e, h (by decide) (by decide)⟩

/-! ## Writers of the liveness flag -/

/-- C14, as stated, fails: `disconnectedTransition` assigns the liveness flag;
a device that enters it not live leaves it live when the ping succeeds, with
the exit watcher not run. -/
theorem handler_assigns_liveness :
    Device.IsOnline ⟨"192.168.1.101", "chris", false⟩ = false ∧
      (disconnectedTransition ⟨none, none⟩ ⟨"192.168.1.101", "chris", false⟩).2.1.IsOnline =
        true := by
  decide

/-- C14, amended: both handlers assign the liveness flag on every path: after
the code of a handler the flag is true when the ping succeeded and false when
it failed, whatever it was before; the exit watcher assigns false on a non-nil
result of `cmd.Wait()`. -/
theorem handlers_assign_liveness (o : Outcome) (d : Device) (err : String) :
    (disconnectedTransition o d).2.1.IsOnline = decide (o.pingErr = none) ∧
      (connectedTransition o d).2.1.IsOnline = decide (o.pingErr = none) ∧
      (exitWatcher d (some err)).1.IsOnline = false := by
  by_cases hp : o.pingErr = none
  · rw [disconnectedTransition_reachable o d hp, connectedTransition_reachable o d hp]
    simp [hp, exitWatcher]
  · rw [disconnectedTransition_unreachable o d hp, connectedTransition_unreachable o d hp]
    simp [hp, exitWatcher]

/-! ## Critical sections -/

/-- C16, as stated, fails: in `transition` the mutex is released between the
read of the record by `getState` and its write by `setState`. -/
theorem mutex_released_between_read_and_write :
    Access.unlock ∈ betweenReadAndWrite "192.168.1.101"
      (NewFSM.transitionAccesses ⟨none, none⟩ ⟨"192.168.1.101", "chris", false⟩) := by
  decide

/-- C16, amended: on every store reached from `NewFSM`, `transition` reads the
record inside the critical section of `getState` and writes it inside the
critical section of `setState`, each access to the map being made with the
mutex held; between the two the mutex is released, the handler runs with the
mutex free, and the mutex is taken again. -/
theorem transition_has_two_critical_sections (calls : List (Outcome × Device))
    (o : Outcome) (d : Device) :
    ∃ fsm,
      NewFSM.transitions calls = some fsm ∧
      fsm.transitionAccesses o d =
        [Access.lock, Access.readState d.IP, Access.unlock,
          Access.call (fsm.getState d.IP),
          Access.lock, Access.writeState d.IP, Access.unlock] ∧
      guardedFrom false (fsm.transitionAccesses o d) = true ∧
      betweenReadAndWrite d.IP (fsm.transitionAccesses o d) =
        [Access.unlock, Access.call (fsm.getState d.IP), Access.lock] := by
  obtain ⟨fsm, e, hv⟩ := valid_transitions calls NewFSM valid_NewFSM
  have hne : ¬ StateDisconnected = StateConnected := by decide
  have hacc : fsm.transitionAccesses o d =
      [Access.lock, Access.readState d.IP, Access.unlock,
        Access.call (fsm.getState d.IP),
        Access.lock, Access.writeState d.IP, Access.unlock] := by
    rcases valid_getState fsm hv d.IP with hs | hs
    · have hg : mapGet NewFSM.transFunc StateDisconnected = some disconnectedTransition := by
        simp [NewFSM, mapGet]
      have hip : (disconnectedTransition o d).2.1.IP = d.IP := by
        by_cases hp : o.pingErr = none
        · rw [disconnectedTransition_reachable o d hp]
        · rw [disconnectedTransition_unreachable o d hp]
      simp [FSM.transitionAccesses, FSM.getStateAccesses, FSM.setStateAccesses, hs, hv.1,
        hg, hip]
    · have hg : mapGet NewFSM.transFunc StateConnected = some connectedTransition := by
        simp [NewFSM, mapGet, hne]
      have hip : (connectedTransition o d).2.1.IP = d.IP := by
        by_cases hp : o.pingErr = none
        · rw [connectedTransition_reachable o d hp]
        · rw [connectedTransition_unreachable o d hp]
      simp [FSM.transitionAccesses, FSM.getStateAccesses, FSM.setStateAccesses, hs, hv.1,
        hg, hip]
  refine ⟨fsm, e, hacc, ?_, ?_⟩
  · rw [hacc]
    simp [guardedFrom]
  · rw [hacc]
    simp [betweenReadAndWrite, afterRead, beforeWrite]

/-! ## State and liveness after an evaluation -/

/-- C17: whatever the stored state of the host, `Disconnected` or `Connected`,
and whatever its liveness flag, when `transition` returns, the exit watcher and
the relaunch goroutine not run, the stored state of the device is `Connected`
exactly when the ping succeeded and its liveness flag is true exactly when the
ping succeeded, so the flag is true exactly when the state is `Connected`. -/
theorem state_and_liveness_follow_ping (fsm : FSM) (d : Device) (o : Outcome)
    (ht : fsm.transFunc = NewFSM.transFunc)
    (hs : fsm.getState d.IP = StateDisconnected ∨ fsm.getState d.IP = StateConnected) :
    ∃ fsm1 d1 eff,
      fsm.transition o d = some (fsm1, d1, eff) ∧
      (fsm1.getState d1.IP = StateConnected ↔ o.pingErr = none) ∧
      (d1.IsOnline = true ↔ o.pingErr = none) ∧
      (d1.IsOnline = true ↔ fsm1.getState d1.IP = StateConnected) := by
  obtain ⟨s, d1, eff, e, hip, -, hstate, hlive⟩ := known_transition_eq fsm o d ht hs
  have hget : (fsm.setState d.IP s).getState d1.IP = s := by
    rw [hip]
    exact getState_setState_same _ _ _
  refine ⟨_, d1, eff, e, ?_, hlive, ?_⟩
  · rw [hget]
    exact hstate
  · rw [hget]
    exact hlive.trans hstate.symm

theorem state_and_liveness_follow_ping_witness :
    ∃ fsm1 d1 eff,
      (FSM.mk [("192.168.1.101", StateConnected)] NewFSM.transFunc).transition
        ⟨some "exit status 1", none⟩ ⟨"192.168.1.101", "chris", true⟩ =
          some (fsm1, d1, eff) ∧
      (fsm1.getState d1.IP = StateConnected ↔
        Outcome.pingErr ⟨some "exit status 1", none⟩ = none) ∧
      (d1.IsOnline = true ↔ Outcome.pingErr ⟨some "exit status 1", none⟩ = none) ∧
      (d1.IsOnline = true ↔ fsm1.getState d1.IP = StateConnected) :=
  state_and_liveness_follow_ping
    (FSM.mk [("192.168.1.101", StateConnected)] NewFSM.transFunc)
    ⟨"192.168.1.101", "chris", true⟩ ⟨some "exit status 1", none⟩ rfl
    (Or.inr (by decide))

/-! ## The relaunch loop -/

theorem relaunchLoop_all_true (d : Device) (starts : List GoError) :
    relaunchLoop d (starts.map (fun s => (true, s))) = none := by
  induction starts with
  | nil => rfl
  | cons s starts ih => simp [relaunchLoop, ih]

theorem relaunchLoop_true_then_false (d : Device) (starts : List GoError) (e : GoError)
    (rest : List (Bool × GoError)) :
    ∃ eff,
      relaunchLoop d (starts.map (fun s => (true, s)) ++ (false, e) :: rest) = some eff ∧
      launchCalls eff = starts.length := by
  induction starts with
  | nil => exact ⟨[], rfl, rfl⟩
  | cons s starts ih =>
    obtain ⟨eff, he, hl⟩ := ih
    refine ⟨Effect.print ("Device (" ++ d.IP ++ ") is still connected\n")
      :: (launchGnomeTerminal d s ++ eff), by simp [relaunchLoop, he], ?_⟩
    have h1 := launchCalls_launchGnomeTerminal d s
    simp only [launchCalls] at h1 hl
    simp [launchCalls, isLaunch, h1, hl]
    omega

/-- C18: the relaunch loop launches once per iteration that reads the liveness
flag true and stops at the first iteration that reads it false.  When it reads
`k` times true and then false it returns having made `k` launch calls, none
when the first read is false, whatever the results of `cmd.Start()`; and as
long as every read is true it is still running, after any number of reads. -/
theorem relaunchLoop_launches_once_per_true_read (d : Device) (starts : List GoError)
    (e : GoError) (rest : List (Bool × GoError)) :
    (∃ eff,
      relaunchLoop d (starts.map (fun s => (true, s)) ++ (false, e) :: rest) = some eff ∧
      launchCalls eff = starts.length) ∧
    relaunchLoop d ((false, e) :: rest) = some [] ∧
    relaunchLoop d (starts.map (fun s => (true, s))) = none :=
  ⟨relaunchLoop_true_then_false d starts e rest, rfl, relaunchLoop_all_true d starts⟩

/-! ## The frame of an evaluation -/

/-- C19: an evaluation by `transition` leaves the address and the user of the
device as they were, leaves the handler table as it was, and leaves the entry
of every store key other than the address of the device as it was, present or
absent. -/
theorem transition_frame (fsm : FSM) (d : Device) (o : Outcome)
    (ht : fsm.transFunc = NewFSM.transFunc)
    (hs : fsm.getState d.IP = StateDisconnected ∨ fsm.getState d.IP = StateConnected) :
    ∃ fsm1 d1 eff,
      fsm.transition o d = some (fsm1, d1, eff) ∧
      d1.IP = d.IP ∧ d1.User = d.User ∧ fsm1.transFunc = fsm.transFunc ∧
      ∀ ip, ip ≠ d.IP → mapGet fsm1.state ip = mapGet fsm.state ip := by
  obtain ⟨s, d1, eff, e, hip, huser, -⟩ := known_transition_eq fsm o d ht hs
  refine ⟨_, d1, eff, e, hip, huser, rfl, ?_⟩
  intro ip hne
  exact mapGet_mapSet_other fsm.state d.IP ip s (Ne.symm hne)

theorem transition_frame_witness :
    ∃ fsm1 d1 eff,
      (FSM.mk [("192.168.1.102", StateConnected)] NewFSM.transFunc).transition
        ⟨none, none⟩ ⟨"192.168.1.101", "chris", false⟩ = some (fsm1, d1, eff) ∧
      d1.IP = "192.168.1.101" ∧ d1.User = "chris" ∧
      mapGet fsm1.state "192.168.1.102" = some StateConnected :=
  match transition_frame (FSM.mk [("192.168.1.102", StateConnected)] NewFSM.transFunc)
    ⟨"192.168.1.101", "chris", false⟩ ⟨none, none⟩ rfl (Or.inl (by decide)) with
  | ⟨fsm1, d1, eff, e, hip, huser, _, hframe⟩ =>
    ⟨fsm1, d1, eff, e, hip, huser, hframe "192.168.1.102" (by decide)⟩

/-! ## An exit watcher racing an evaluation -/

theorem racingTransFunc_disconnected (waitErr : GoError) (pos : WatcherAt) :
    mapGet (racingTransFunc waitErr pos) StateDisconnected =
      some (disconnectedTransitionRacing waitErr pos) := by
  simp [racingTransFunc, mapGet]

theorem racingTransFunc_connected (waitErr : GoError) (pos : WatcherAt) :
    mapGet (racingTransFunc waitErr pos) StateConnected =
      some (connectedTransitionRacing waitErr pos) := by
  have hne : ¬ StateDisconnected = StateConnected := by decide
  simp [racingTransFunc, mapGet, hne]

theorem exitWatcher_address (d : Device) (waitErr : GoError) :
    (exitWatcher d waitErr).1.IP = d.IP ∧ (exitWatcher d waitErr).1.User = d.User := by
  cases waitErr <;> simp [exitWatcher]

/-- A racing handler against the handler run alone: a write of the watcher
before the read is the handler run after the watcher, a write between the read
and the assignment is lost to the assignment, and a write after the assignment
is the watcher run after the handler. -/
theorem disconnectedTransitionRacing_eq (waitErr : GoError) (o : Outcome) (d : Device) :
    disconnectedTransitionRacing waitErr WatcherAt.beforeRead o d =
        disconnectedTransition o (exitWatcher d waitErr).1 ∧
      disconnectedTransitionRacing waitErr WatcherAt.beforeAssign o d =
        disconnectedTransition o d ∧
      disconnectedTransitionRacing waitErr WatcherAt.beforeReturn o d =
        ((disconnectedTransition o d).1,
          (exitWatcher (disconnectedTransition o d).2.1 waitErr).1,
          (disconnectedTransition o d).2.2) ∧
      disconnectedTransitionRacing waitErr WatcherAt.afterReturn o d =
        disconnectedTransition o d := by
  cases hp : o.pingErr <;> cases hd : d.IsOnline <;> cases waitErr <;>
    simp [disconnectedTransitionRacing, disconnectedTransition, pingCheck, watcherLands,
      exitWatcher, hp, hd]

theorem connectedTransitionRacing_eq (waitErr : GoError) (o : Outcome) (d : Device) :
    connectedTransitionRacing waitErr WatcherAt.beforeRead o d =
        connectedTransition o (exitWatcher d waitErr).1 ∧
      connectedTransitionRacing waitErr WatcherAt.beforeAssign o d =
        connectedTransition o d ∧
      connectedTransitionRacing waitErr WatcherAt.beforeReturn o d =
        ((connectedTransition o d).1,
          (exitWatcher (connectedTransition o d).2.1 waitErr).1,
          (connectedTransition o d).2.2) ∧
      connectedTransitionRacing waitErr WatcherAt.afterReturn o d =
        connectedTransition o d := by
  cases hp : o.pingErr <;> cases hd : d.IsOnline <;> cases waitErr <;>
    simp [connectedTransitionRacing, connectedTransition, pingCheck, watcherLands,
      exitWatcher, hp, hd]

theorem disconnectedTransition_address (o : Outcome) (d : Device) :
    (disconnectedTransition o d).2.1.IP = d.IP := by
  by_cases hp : o.pingErr = none
  · rw [disconnectedTransition_reachable o d hp]
  · rw [disconnectedTransition_unreachable o d hp]

theorem connectedTransition_address (o : Outcome) (d : Device) :
    (connectedTransition o d).2.1.IP = d.IP := by
  by_cases hp : o.pingErr = none
  · rw [connectedTransition_reachable o d hp]
  · rw [connectedTransition_unreachable o d hp]

theorem transitionRacing_disconnected (fsm : FSM) (waitErr : GoError) (pos : WatcherAt)
    (o : Outcome) (d : Device) (hs : fsm.getState d.IP = StateDisconnected) :
    fsm.transitionRacing waitErr pos o d =
      some (fsm.setState (disconnectedTransitionRacing waitErr pos o d).2.1.IP
          (disconnectedTransitionRacing waitErr pos o d).1,
        (disconnectedTransitionRacing waitErr pos o d).2.1,
        watcherLands waitErr (decide (pos = WatcherAt.afterReturn))
          (disconnectedTransitionRacing waitErr pos o d).2.1,
        (disconnectedTransitionRacing waitErr pos o d).2.2) := by
  simp only [FSM.transitionRacing, hs, racingTransFunc_disconnected]

theorem transitionRacing_connected (fsm : FSM) (waitErr : GoError) (pos : WatcherAt)
    (o : Outcome) (d : Device) (hs : fsm.getState d.IP = StateConnected) :
    fsm.transitionRacing waitErr pos o d =
      some (fsm.setState (connectedTransitionRacing waitErr pos o d).2.1.IP
          (connectedTransitionRacing waitErr pos o d).1,
        (connectedTransitionRacing waitErr pos o d).2.1,
        watcherLands waitErr (decide (pos = WatcherAt.afterReturn))
          (connectedTransitionRacing waitErr pos o d).2.1,
        (connectedTransitionRacing waitErr pos o d).2.2) := by
  simp only [FSM.transitionRacing, hs, racingTransFunc_connected]

/-- A racing evaluation against the evaluation run alone, for each place where
the write of the watcher can land. -/
theorem transitionRacing_eq (fsm : FSM) (waitErr : GoError) (o : Outcome) (d : Device)
    (ht : fsm.transFunc = NewFSM.transFunc)
    (hs : fsm.getState d.IP = StateDisconnected ∨ fsm.getState d.IP = StateConnected) :
    ∃ fsm0 d0 eff0 fsm1 d1 eff1,
      fsm.transition o (exitWatcher d waitErr).1 = some (fsm0, d0, eff0) ∧
      fsm.transition o d = some (fsm1, d1, eff1) ∧
      fsm.transitionRacing waitErr WatcherAt.beforeRead o d = some (fsm0, d0, d0, eff0) ∧
      fsm.transitionRacing waitErr WatcherAt.beforeAssign o d = some (fsm1, d1, d1, eff1) ∧
      fsm.transitionRacing waitErr WatcherAt.beforeReturn o d =
        some (fsm1, (exitWatcher d1 waitErr).1, (exitWatcher d1 waitErr).1, eff1) ∧
      fsm.transitionRacing waitErr WatcherAt.afterReturn o d =
        some (fsm1, d1, (exitWatcher d1 waitErr).1, eff1) := by
  have hw := exitWatcher_address d waitErr
  rcases hs with hs | hs
  · have hs0 : fsm.getState (exitWatcher d waitErr).1.IP = StateDisconnected := by
      rw [hw.1]; exact hs
    obtain ⟨h1, h2, h3, h4⟩ := disconnectedTransitionRacing_eq waitErr o d
    refine ⟨_, _, _, _, _, _, transition_disconnected fsm o _ ht hs0,
      transition_disconnected fsm o d ht hs, ?_, ?_, ?_, ?_⟩
    · rw [transitionRacing_disconnected fsm waitErr _ o d hs, h1]
      simp [watcherLands, hw.1, disconnectedTransition_address, connectedTransition_address]
    · rw [transitionRacing_disconnected fsm waitErr _ o d hs, h2]
      simp [watcherLands, disconnectedTransition_address, connectedTransition_address]
    · rw [transitionRacing_disconnected fsm waitErr _ o d hs, h3]
      simp [watcherLands, (exitWatcher_address _ waitErr).1, disconnectedTransition_address,
        connectedTransition_address]
    · rw [transitionRacing_disconnected fsm waitErr _ o d hs, h4]
      simp [watcherLands, disconnectedTransition_address, connectedTransition_address]
  · have hs0 : fsm.getState (exitWatcher d waitErr).1.IP = StateConnected := by
      rw [hw.1]; exact hs
    obtain ⟨h1, h2, h3, h4⟩ := connectedTransitionRacing_eq waitErr o d
    refine ⟨_, _, _, _, _, _, transition_connected fsm o _ ht hs0,
      transition_connected fsm o d ht hs, ?_, ?_, ?_, ?_⟩
    · rw [transitionRacing_connected fsm waitErr _ o d hs, h1]
      simp [watcherLands, hw.1, disconnectedTransition_address, connectedTransition_address]
    · rw [transitionRacing_connected fsm waitErr _ o d hs, h2]
      simp [watcherLands, disconnectedTransition_address, connectedTransition_address]
    · rw [transitionRacing_connected fsm waitErr _ o d hs, h3]
      simp [watcherLands, (exitWatcher_address _ waitErr).1, disconnectedTransition_address,
        connectedTransition_address]
    · rw [transitionRacing_connected fsm waitErr _ o d hs, h4]
      simp [watcherLands, disconnectedTransition_address, connectedTransition_address]

/-- An evaluation run alone, on the handler table of `NewFSM`, of a host whose
stored state is one of the two: what it stores and the flag it leaves. -/
theorem known_transition_exact (fsm : FSM) (o : Outcome) (d : Device)
    (ht : fsm.transFunc = NewFSM.transFunc)
    (hs : fsm.getState d.IP = StateDisconnected ∨ fsm.getState d.IP = StateConnected) :
    ∃ eff,
      fsm.transition o d =
        some (fsm.setState d.IP (if o.pingErr = none then StateConnected else StateDisconnected),
          ⟨d.IP, d.User, decide (o.pingErr = none)⟩, eff) := by
  rcases hs with hs | hs
  · have e := transition_disconnected fsm o d ht hs
    by_cases hp : o.pingErr = none
    · rw [disconnectedTransition_reachable o d hp] at e
      exact ⟨_, by simpa [hp] using e⟩
    · rw [disconnectedTransition_unreachable o d hp] at e
      exact ⟨_, by simpa [hp] using e⟩
  · have e := transition_connected fsm o d ht hs
    by_cases hp : o.pingErr = none
    · rw [connectedTransition_reachable o d hp] at e
      exact ⟨_, by simpa [hp] using e⟩
    · rw [connectedTransition_unreachable o d hp] at e
      exact ⟨_, by simpa [hp] using e⟩

/-- C15: when the write of an exit watcher and an evaluation by `transition` of
the same device run together, wherever the write lands among the accesses of
the evaluation (before its read of the flag, between the read and its
assignment, after the assignment, after the return), the evaluation returns and
the store and the liveness flag, once both are done, are those of the watcher
run first and the evaluation after it, or those of the evaluation run first and
the watcher after it. -/
theorem racing_pair_is_one_of_two_orders (fsm : FSM) (d : Device) (o : Outcome)
    (waitErr : GoError) (pos : WatcherAt)
    (ht : fsm.transFunc = NewFSM.transFunc)
    (hs : fsm.getState d.IP = StateDisconnected ∨ fsm.getState d.IP = StateConnected) :
    ∃ fsm1 dRet dEnd eff,
      fsm.transitionRacing waitErr pos o d = some (fsm1, dRet, dEnd, eff) ∧
      ((∃ fsm2 d2 eff2,
          fsm.transition o (exitWatcher d waitErr).1 = some (fsm2, d2, eff2) ∧
          fsm1.state = fsm2.state ∧ fsm1.getState d.IP = fsm2.getState d.IP ∧
          dEnd.IsOnline = d2.IsOnline) ∨
        (∃ fsm2 d2 eff2,
          fsm.transition o d = some (fsm2, d2, eff2) ∧
          fsm1.state = fsm2.state ∧ fsm1.getState d.IP = fsm2.getState d.IP ∧
          dEnd.IsOnline = (exitWatcher d2 waitErr).1.IsOnline)) := by
  obtain ⟨fsm0, d0, eff0, fsm1, d1, eff1, e0, e1, r1, r2, r3, r4⟩ :=
    transitionRacing_eq fsm waitErr o d ht hs
  cases pos with
  | beforeRead => exact ⟨_, _, _, _, r1, Or.inl ⟨_, _, _, e0, rfl, rfl, rfl⟩⟩
  | beforeAssign =>
    refine ⟨_, _, _, _, r2, Or.inl ⟨_, _, _, e0, ?_, ?_, ?_⟩⟩
    all_goals
      have hw := exitWatcher_address d waitErr
      obtain ⟨x0, k0⟩ := known_transition_exact fsm o (exitWatcher d waitErr).1 ht
        (by rw [hw.1]; exact hs)
      obtain ⟨x1, k1⟩ := known_transition_exact fsm o d ht hs
      rw [e0] at k0
      rw [e1] at k1
      simp only [Option.some.injEq, Prod.mk.injEq] at k0 k1
      obtain ⟨q0, q0d, -⟩ := k0
      obtain ⟨q1, q1d, -⟩ := k1
      simp [q0, q1, q0d, q1d, hw.1]
  | beforeReturn => exact ⟨_, _, _, _, r3, Or.inr ⟨_, _, _, e1, rfl, rfl, rfl⟩⟩
  | afterReturn => exact ⟨_, _, _, _, r4, Or.inr ⟨_, _, _, e1, rfl, rfl, rfl⟩⟩

theorem racing_pair_is_one_of_two_orders_witness :
    ∃ fsm1 dRet dEnd eff,
      (FSM.mk [("192.168.1.101", StateConnected)] NewFSM.transFunc).transitionRacing
        (some "exit status 1") WatcherAt.beforeAssign ⟨none, none⟩
        ⟨"192.168.1.101", "chris", true⟩ = some (fsm1, dRet, dEnd, eff) ∧
      ((∃ fsm2 d2 eff2,
          (FSM.mk [("192.168.1.101", StateConnected)] NewFSM.transFunc).transition
            ⟨none, none⟩
            (exitWatcher ⟨"192.168.1.101", "chris", true⟩ (some "exit status 1")).1 =
              some (fsm2, d2, eff2) ∧
          fsm1.state = fsm2.state ∧
          fsm1.getState (Device.IP ⟨"192.168.1.101", "chris", true⟩) =
            fsm2.getState (Device.IP ⟨"192.168.1.101", "chris", true⟩) ∧
          dEnd.IsOnline = d2.IsOnline) ∨
        (∃ fsm2 d2 eff2,
          (FSM.mk [("192.168.1.101", StateConnected)] NewFSM.transFunc).transition
            ⟨none, none⟩ ⟨"192.168.1.101", "chris", true⟩ = some (fsm2, d2, eff2) ∧
          fsm1.state = fsm2.state ∧
          fsm1.getState (Device.IP ⟨"192.168.1.101", "chris", true⟩) =
            fsm2.getState (Device.IP ⟨"192.168.1.101", "chris", true⟩) ∧
          dEnd.IsOnline = (exitWatcher d2 (some "exit status 1")).1.IsOnline)) :=
  racing_pair_is_one_of_two_orders
    (FSM.mk [("192.168.1.101", StateConnected)] NewFSM.transFunc)
    ⟨"192.168.1.101", "chris", true⟩ ⟨none, none⟩ (some "exit status 1")
    WatcherAt.beforeAssign rfl (Or.inr (by decide))

/-! ## Scenario A and a failed launch, with the exit watcher of the launch -/

/-- The first evaluation of scenario A: from the store of `NewFSM`, a failed
ping stores `Disconnected`, clears the flag and launches nothing. -/
theorem first_unreachable_evaluation (d : Device) (o1 : Outcome) (h1 : o1.pingErr ≠ none) :
    NewFSM.transition o1 d =
        some (NewFSM.setState d.IP StateDisconnected, ⟨d.IP, d.User, false⟩,
          [Effect.run "ping" ["-c", "1", "-W", "1", d.IP]]) ∧
      (NewFSM.setState d.IP StateDisconnected).getState d.IP = StateDisconnected := by
  have e1 := transition_disconnected NewFSM o1 d rfl
    (by simp [FSM.getState, NewFSM, mapGet])
  rw [disconnectedTransition_unreachable o1 d h1] at e1
  exact ⟨e1, getState_setState_same _ _ _⟩

/-- The evaluation of a `Disconnected`, not live host that answers the ping,
run alone: it stores `Connected`, sets the flag, and its effects are the ping,
the line `is up` and the launch. -/
theorem reachable_evaluation_of_down_host (fsm : FSM) (o : Outcome) (d : Device)
    (ht : fsm.transFunc = NewFSM.transFunc) (hs : fsm.getState d.IP = StateDisconnected)
    (hd : d.IsOnline = false) (hp : o.pingErr = none) :
    fsm.transition o d =
      some (fsm.setState d.IP StateConnected, ⟨d.IP, d.User, true⟩,
        Effect.run "ping" ["-c", "1", "-W", "1", d.IP] ::
          Effect.print ("Device (" ++ d.IP ++ ") is up\n") ::
          launchGnomeTerminal d o.startErr) := by
  have e := transition_disconnected fsm o d ht hs
  rw [disconnectedTransition_reachable o d hp] at e
  simpa [hd] using e

/-- C3, as stated, fails: in scenario A, when `cmd.Start()` fails in the second
evaluation, `cmd.Wait()` fails in the exit watcher of that launch, and the write
of the watcher lands after the assignment of the handler and before
`transition` returns, the state is `Connected` and one launch call has been
made, but the liveness flag is false when `transition` returns. -/
theorem scenarioA_not_live_at_return :
    ∃ fsm1 d1 eff1 fsm2 dRet dEnd eff2,
      NewFSM.transition ⟨some "exit status 1", none⟩ ⟨"192.168.1.101", "chris", false⟩ =
        some (fsm1, d1, eff1) ∧
      fsm1.transitionRacing (some "exec: not started") WatcherAt.beforeReturn
        ⟨none, some "executable file not found"⟩ d1 = some (fsm2, dRet, dEnd, eff2) ∧
      fsm2.getState "192.168.1.101" = StateConnected ∧
      launchCalls (eff1 ++ eff2) = 1 ∧ dRet.IsOnline = false := by
  obtain ⟨e1, hs1⟩ := first_unreachable_evaluation ⟨"192.168.1.101", "chris", false⟩
    ⟨some "exit status 1", none⟩ (by decide)
  obtain ⟨fsm0, d0, eff0, fsm2, d2, eff2, -, e2, -, -, r3, -⟩ :=
    transitionRacing_eq (NewFSM.setState "192.168.1.101" StateDisconnected)
      (some "exec: not started") ⟨none, some "executable file not found"⟩
      ⟨"192.168.1.101", "chris", false⟩ rfl (Or.inl hs1)
  rw [reachable_evaluation_of_down_host (NewFSM.setState "192.168.1.101" StateDisconnected)
    ⟨none, some "executable file not found"⟩ ⟨"192.168.1.101", "chris", false⟩
    rfl hs1 rfl rfl] at e2
  simp only [Option.some.injEq, Prod.mk.injEq] at e2
  obtain ⟨rfl, rfl, rfl⟩ := e2
  exact ⟨_, _, _, _, _, _, _, e1, r3, getState_setState_same _ _ _, by decide, by decide⟩

/-- C3, amended: from the store of `NewFSM`, an evaluation with the probe
unreachable leaves the host `Disconnected` with no launch call; a second
evaluation, with the probe reachable, leaves it `Connected`, and one launch
call has been made in all and no relaunch goroutine started, for every result
of `cmd.Start()` and wherever the write of the exit watcher of that launch
lands; and the liveness flag is true when `transition` returns if that watcher
has not written by then, its write landing after the return or `cmd.Wait()`
returning nil. -/
theorem scenarioA_live_until_watcher_writes (d : Device) (o1 o2 : Outcome)
    (waitErr : GoError) (pos : WatcherAt)
    (h1 : o1.pingErr ≠ none) (h2 : o2.pingErr = none) (hpos : pos ≠ WatcherAt.beforeRead) :
    ∃ fsm1 d1 eff1 fsm2 dRet dEnd eff2,
      NewFSM.transition o1 d = some (fsm1, d1, eff1) ∧
      fsm1.getState d.IP = StateDisconnected ∧ launchCalls eff1 = 0 ∧
      fsm1.transitionRacing waitErr pos o2 d1 = some (fsm2, dRet, dEnd, eff2) ∧
      fsm2.getState d.IP = StateConnected ∧
      launchCalls (eff1 ++ eff2) = 1 ∧ relaunchTasks (eff1 ++ eff2) = 0 ∧
      (pos = WatcherAt.afterReturn ∨ waitErr = none → dRet.IsOnline = true) := by
  obtain ⟨e1, hs1⟩ := first_unreachable_evaluation d o1 h1
  obtain ⟨fsm0, d0, eff0, fsm2, d2, eff2, -, e2, -, r2, r3, r4⟩ :=
    transitionRacing_eq (NewFSM.setState d.IP StateDisconnected) waitErr o2
      ⟨d.IP, d.User, false⟩ rfl (Or.inl hs1)
  rw [reachable_evaluation_of_down_host (NewFSM.setState d.IP StateDisconnected) o2
    ⟨d.IP, d.User, false⟩ rfl hs1 rfl h2] at e2
  simp only [Option.some.injEq, Prod.mk.injEq] at e2
  obtain ⟨rfl, rfl, rfl⟩ := e2
  have hl := launchCalls_launchGnomeTerminal ⟨d.IP, d.User, false⟩ o2.startErr
  have hr := relaunchTasks_launchGnomeTerminal ⟨d.IP, d.User, false⟩ o2.startErr
  simp only [launchCalls] at hl
  simp only [relaunchTasks] at hr
  have hc : launchCalls [Effect.run "ping" ["-c", "1", "-W", "1", d.IP]] = 0 := by
    simp [launchCalls, isLaunch]
  have hl2 : launchCalls ([Effect.run "ping" ["-c", "1", "-W", "1", d.IP]] ++
      Effect.run "ping" ["-c", "1", "-W", "1", d.IP] ::
        Effect.print ("Device (" ++ d.IP ++ ") is up\n") ::
        launchGnomeTerminal ⟨d.IP, d.User, false⟩ o2.startErr) = 1 := by
    simp [launchCalls, isLaunch, hl]
  have hr2 : relaunchTasks ([Effect.run "ping" ["-c", "1", "-W", "1", d.IP]] ++
      Effect.run "ping" ["-c", "1", "-W", "1", d.IP] ::
        Effect.print ("Device (" ++ d.IP ++ ") is up\n") ::
        launchGnomeTerminal ⟨d.IP, d.User, false⟩ o2.startErr) = 0 := by
    simp [relaunchTasks, isRelaunch, hr]
  cases pos with
  | beforeRead => exact absurd rfl hpos
  | beforeAssign =>
    exact ⟨_, _, _, _, _, _, _, e1, hs1, hc, r2, getState_setState_same _ _ _, hl2, hr2,
      fun _ => rfl⟩
  | beforeReturn =>
    refine ⟨_, _, _, _, _, _, _, e1, hs1, hc, r3, getState_setState_same _ _ _, hl2, hr2, ?_⟩
    intro hw
    rcases hw with hw | hw
    · exact absurd hw (by decide)
    · subst hw
      rfl
  | afterReturn =>
    exact ⟨_, _, _, _, _, _, _, e1, hs1, hc, r4, getState_setState_same _ _ _, hl2, hr2,
      fun _ => rfl⟩

theorem scenarioA_live_until_watcher_writes_witness :
    ∃ fsm1 d1 eff1 fsm2 dRet dEnd eff2,
      NewFSM.transition ⟨some "exit status 1", none⟩ ⟨"192.168.1.101", "chris", false⟩ =
        some (fsm1, d1, eff1) ∧
      fsm1.getState "192.168.1.101" = StateDisconnected ∧ launchCalls eff1 = 0 ∧
      fsm1.transitionRacing (some "exit status 1") WatcherAt.afterReturn ⟨none, none⟩ d1 =
        some (fsm2, dRet, dEnd, eff2) ∧
      fsm2.getState "192.168.1.101" = StateConnected ∧
      launchCalls (eff1 ++ eff2) = 1 ∧ relaunchTasks (eff1 ++ eff2) = 0 ∧
      dRet.IsOnline = true :=
  match scenarioA_live_until_watcher_writes ⟨"192.168.1.101", "chris", false⟩
    ⟨some "exit status 1", none⟩ ⟨none, none⟩ (some "exit status 1")
    WatcherAt.afterReturn (by decide) (by decide) (by decide) with
  | ⟨fsm1, d1, eff1, fsm2, dRet, dEnd, eff2, e1, hs1, hc, e2, hs2, hl, hr, hlive⟩ =>
    ⟨fsm1, d1, eff1, fsm2, dRet, dEnd, eff2, e1, hs1, hc, e2, hs2, hl, hr,
      hlive (Or.inl rfl)⟩

/-- C5, as stated, fails: when `cmd.Start()` fails during the evaluation of a
`Disconnected`, not live host that answers the ping, and the write of the exit
watcher of that launch lands after `transition` has returned, `transition`
returns with the state `Connected` and the liveness flag true, not false. -/
theorem launch_failure_live_at_return :
    ∃ fsm1 dRet dEnd eff,
      NewFSM.transitionRacing (some "exec: not started") WatcherAt.afterReturn
        ⟨none, some "executable file not found"⟩ ⟨"192.168.1.101", "chris", false⟩ =
          some (fsm1, dRet, dEnd, eff) ∧
      fsm1.getState "192.168.1.101" = StateConnected ∧ dRet.IsOnline = true := by
  have hs : NewFSM.getState "192.168.1.101" = StateDisconnected := by decide
  obtain ⟨fsm0, d0, eff0, fsm1, d1, eff1, -, e, -, -, -, r4⟩ :=
    transitionRacing_eq NewFSM (some "exec: not started")
      ⟨none, some "executable file not found"⟩ ⟨"192.168.1.101", "chris", false⟩
      rfl (Or.inl hs)
  rw [reachable_evaluation_of_down_host NewFSM ⟨none, some "executable file not found"⟩
    ⟨"192.168.1.101", "chris", false⟩ rfl hs rfl rfl] at e
  simp only [Option.some.injEq, Prod.mk.injEq] at e
  obtain ⟨rfl, rfl, rfl⟩ := e
  exact ⟨_, _, _, _, r4, getState_setState_same _ _ _, rfl⟩

/-- C5, amended: when `cmd.Start()` fails with `err` during the evaluation of a
`Disconnected`, not live host that answers the ping, the failure is printed,
one launch call has been made and its exit watcher started, and the state
stored is `Connected`.  The handler sets the liveness flag whatever the launch
did, and the exit watcher, on the error of `cmd.Wait()`, clears it: when the
write of the watcher lands after the assignment of the handler, the flag is
false once it has landed, the state staying `Connected`, and the flag is true
when `transition` returns exactly when the write lands after the return. -/
theorem launch_failure_cleared_by_watcher (fsm : FSM) (d : Device) (o : Outcome)
    (err waitErr : String) (pos : WatcherAt)
    (ht : fsm.transFunc = NewFSM.transFunc) (hs : fsm.getState d.IP = StateDisconnected)
    (hd : d.IsOnline = false) (hp : o.pingErr = none) (hstart : o.startErr = some err)
    (hpos : pos = WatcherAt.beforeReturn ∨ pos = WatcherAt.afterReturn) :
    ∃ fsm1 dRet dEnd eff,
      fsm.transitionRacing (some waitErr) pos o d = some (fsm1, dRet, dEnd, eff) ∧
      fsm1.getState d.IP = StateConnected ∧
      launchCalls eff = 1 ∧
      Effect.print ("Failed to launch terminal: " ++ err ++ "\n") ∈ eff ∧
      Effect.goWatcher d.IP ∈ eff ∧
      dEnd.IsOnline = false ∧ fsm1.getState dEnd.IP = StateConnected ∧
      (dRet.IsOnline = true ↔ pos = WatcherAt.afterReturn) := by
  obtain ⟨fsm0, d0, eff0, fsm1, d1, eff1, -, e, -, -, r3, r4⟩ :=
    transitionRacing_eq fsm (some waitErr) o d ht (Or.inl hs)
  rw [reachable_evaluation_of_down_host fsm o d ht hs hd hp] at e
  simp only [Option.some.injEq, Prod.mk.injEq] at e
  obtain ⟨rfl, rfl, rfl⟩ := e
  have hl : launchCalls (Effect.run "ping" ["-c", "1", "-W", "1", d.IP] ::
      Effect.print ("Device (" ++ d.IP ++ ") is up\n") ::
      launchGnomeTerminal d o.startErr) = 1 := by
    have := launchCalls_launchGnomeTerminal d o.startErr
    simp only [launchCalls] at this
    simp [launchCalls, isLaunch, this]
  have hf : Effect.print ("Failed to launch terminal: " ++ err ++ "\n") ∈
      Effect.run "ping" ["-c", "1", "-W", "1", d.IP] ::
        Effect.print ("Device (" ++ d.IP ++ ") is up\n") ::
        launchGnomeTerminal d o.startErr := by
    simp [hstart, launchGnomeTerminal]
  have hg : Effect.goWatcher d.IP ∈
      Effect.run "ping" ["-c", "1", "-W", "1", d.IP] ::
        Effect.print ("Device (" ++ d.IP ++ ") is up\n") ::
        launchGnomeTerminal d o.startErr := by
    simp [launchGnomeTerminal]
  rcases hpos with hpos | hpos
  · subst hpos
    refine ⟨_, _, _, _, r3, getState_setState_same _ _ _, hl, hf, hg, ?_, ?_, ?_⟩
    · simp [exitWatcher]
    · simp [exitWatcher, getState_setState_same]
    · simp [exitWatcher]
  · subst hpos
    refine ⟨_, _, _, _, r4, getState_setState_same _ _ _, hl, hf, hg, ?_, ?_, ?_⟩
    · simp [exitWatcher]
    · simp [exitWatcher, getState_setState_same]
    · simp

theorem launch_failure_cleared_by_watcher_witness :
    ∃ fsm1 dRet dEnd eff,
      NewFSM.transitionRacing (some "exec: not started") WatcherAt.beforeReturn
        ⟨none, some "executable file not found"⟩ ⟨"192.168.1.101", "chris", false⟩ =
          some (fsm1, dRet, dEnd, eff) ∧
      fsm1.getState "192.168.1.101" = StateConnected ∧
      launchCalls eff = 1 ∧
      Effect.print ("Failed to launch terminal: " ++ "executable file not found" ++ "\n")
        ∈ eff ∧
      Effect.goWatcher "192.168.1.101" ∈ eff ∧
      dEnd.IsOnline = false ∧ fsm1.getState dEnd.IP = StateConnected ∧
      (dRet.IsOnline = true ↔ WatcherAt.beforeReturn = WatcherAt.afterReturn) :=
  launch_failure_cleared_by_watcher NewFSM ⟨"192.168.1.101", "chris", false⟩
    ⟨none, some "executable file not found"⟩ "executable file not found"
    "exec: not started" WatcherAt.beforeReturn rfl (by decide) rfl rfl rfl (Or.inl rfl)

end NetPiMonitor
